import Mathlib

/-!
Verification of the literature-review-system repository: a shallow
embedding of the catalog / storage / export code (`src/app.js`,
`src/github-releases-uploader.js`) into Lean, together with theorems
settling the specification claims.

Modelling conventions for the JavaScript source:
* a JS value that may be `undefined`/`null` is an `Option`;
* JS string falsiness (`""` is falsy) and number falsiness (`0`, `NaN`
  are falsy) are modelled explicitly where the code relies on them;
* `parseInt` results are `Option Int` (`none` standing for `NaN`);
* machine numbers are `Int`/`Nat` (the code only manipulates small
  integers: years, counts, page numbers);
* DOM reads (`document.getElementById(...).value` after the code's own
  `split`/`trim`/`parseInt` conversions) are the fields of an input
  structure handed to the embedded operation;
* store/network effects (`IndexedDB`, `fetch`) are oracles passed as
  function arguments; a call that can throw returns `Except`/`Bool`.
-/

/-- A paper id as produced by the code: either a number
(`normalizepaperData` / `handleManualEntry` assign `papers.length + 1`)
or a string (`addPaper` / migration generate
`paper_<timestamp>_<suffix>`). -/
inductive PaperId where
  | num (n : Nat)
  | str (s : String)
deriving DecidableEq, Repr

/-- JS falsiness of a possibly-absent id (`!paperData.id`):
`undefined`, the number `0` and the empty string are falsy. -/
def jsIdFalsy : Option PaperId → Bool
  | none => true
  | some (.num n) => n == 0
  | some (.str s) => s == ""

/-- JS truthiness of a possibly-absent string field
(e.g. `paper.thumbnail`): present and non-empty. -/
def jsStrTruthy : Option String → Bool
  | none => false
  | some s => !(s == "")

/-- A paper record, with the fields the specified operations touch
(`src/app.js`).  `pdfFile` stands for the attached binary blob,
`pdfUrl` for the possibly-undefined URL field. -/
structure Paper where
  id : Option PaperId := none
  title : String := ""
  authors : List String := []
  year : Int := 0
  journal : String := ""
  researchArea : String := ""
  methodology : String := ""
  studyType : String := ""
  keywords : List String := []
  citations : Int := 0
  downloads : Int := 0
  hIndex : Int := 0
  abstract : String := ""
  doi : String := ""
  pdfUrl : Option String := none
  websiteUrl : Option String := none
  thumbnail : Option String := none
  pdfFile : Option String := none
deriving DecidableEq, Repr

/-- The values read from the edit form by `savePaperDetails`
(`src/app.js` lines 1084-1098), after the code's own conversions:
`authors`/`keywords` after `split(',')/trim/filter`, `journal` and the
other text fields after `trim`, `year`/`citations`/`downloads` as
`parseInt` results (`none` = `NaN`). -/
structure EditInput where
  authors : List String := []
  journal : String := ""
  year : Option Int := none
  researchArea : String := ""
  methodology : String := ""
  studyType : String := ""
  abstract : String := ""
  keywords : List String := []
  citations : Option Int := none
  downloads : Option Int := none
  doi : String := ""
deriving DecidableEq, Repr

/-- Notification kinds used by `showNotification`. -/
inductive NotifKind where
  | success
  | error
  | info
  | warning
deriving DecidableEq, Repr

/-- Observable result of `savePaperDetails`: the papers array, the
`currentEditingPaper` field, whether `saveData` ran, whether
`applyFilters` ran, and the notification shown (if any). -/
structure EditResult where
  papers : List Paper
  currentEditingPaper : Option Paper
  persisted : Bool
  filtersReapplied : Bool
  notification : Option (String × NotifKind)
deriving DecidableEq, Repr

/-- The `editedPaper` object literal of `savePaperDetails`
(`src/app.js` lines 1084-1098): the current record spread, with the
form fields replacing the edited ones (`||` defaults `citations` and
`downloads` to 0 on `NaN`). -/
def editedFrom (cur : Paper) (input : EditInput) : Paper :=
  { cur with
    authors := input.authors
    journal := input.journal
    year := input.year.getD 0
    researchArea := input.researchArea
    methodology := input.methodology
    studyType := input.studyType
    abstract := input.abstract
    keywords := input.keywords
    citations := input.citations.getD 0
    downloads := input.downloads.getD 0
    doi := input.doi }

/-- The record actually stored on a hit: `editedPaper` with
`hIndex = Math.floor(citations / 3)` (`src/app.js` line 1115). -/
def savedFrom (cur : Paper) (input : EditInput) : Paper :=
  { editedFrom cur input with hIndex := Int.fdiv (input.citations.getD 0) 3 }

/-- `savePaperDetails` (`src/app.js` lines 1080-1137).  Builds the
edited record by spreading the current one, validates required fields
(`!authors.length || !journal || !year`, then the year range), looks
the id up with `findIndex`, and on a hit recomputes `hIndex`, replaces
the record, persists and refilters; a miss falls through silently. -/
def savePaperDetails (papers : List Paper) (current : Option Paper)
    (input : EditInput) : EditResult :=
  match current with
  | none => ⟨papers, none, false, false, none⟩
  | some cur =>
    if input.authors.isEmpty || input.journal == "" ||
        (input.year.getD 0) == 0 then
      ⟨papers, some cur, false, false,
        some ("Please fill in required fields: authors, journal and year", .error)⟩
    else if (input.year.getD 0) < 1900 || (input.year.getD 0) > 2030 then
      ⟨papers, some cur, false, false,
        some ("Please enter a valid publication year", .error)⟩
    else
      match papers.findIdx? (fun p => p.id == cur.id) with
      | some i =>
        ⟨papers.set i (savedFrom cur input), some (savedFrom cur input),
          true, true,
          some ("Paper information saved successfully!", .success)⟩
      | none => ⟨papers, some cur, false, false, none⟩

/-- The required-field policy as the spec words it: authors non-empty,
venue non-empty, year present and within `[1900, 2030]`.  `true` means
the fields fail the policy. -/
def failsRequiredPolicy (input : EditInput) : Bool :=
  input.authors.isEmpty || input.journal == "" ||
    match input.year with
    | none => true
    | some y => y < 1900 || y > 2030

/-- Helper: a successful validation pass, unpacked. -/
theorem failsRequiredPolicy_false_elim (input : EditInput)
    (h : failsRequiredPolicy input = false) :
    input.authors.isEmpty = false ∧ (input.journal == "") = false ∧
      ∃ y, input.year = some y ∧ 1900 ≤ y ∧ y ≤ 2030 := by
  unfold failsRequiredPolicy at h
  simp only [Bool.or_eq_false_iff] at h
  obtain ⟨⟨h1, h2⟩, h3⟩ := h
  refine ⟨h1, h2, ?_⟩
  cases hy : input.year with
  | none => rw [hy] at h3; simp at h3
  | some y =>
    rw [hy] at h3
    simp only [Bool.or_eq_false_iff, decide_eq_false_iff_not, not_lt] at h3
    exact ⟨y, rfl, h3.1, h3.2⟩

/-- Helper: whenever either validation branch of `savePaperDetails`
fires, the edit is rejected with an error notification and the papers
array is untouched. -/
theorem savePaperDetails_rejected_of_cond (papers : List Paper) (cur : Paper)
    (input : EditInput)
    (h : (input.authors.isEmpty || input.journal == "" ||
            (input.year.getD 0) == 0) = true ∨
         (decide ((input.year.getD 0) < 1900) ||
            decide ((input.year.getD 0) > 2030)) = true) :
    (savePaperDetails papers (some cur) input).papers = papers ∧
    (savePaperDetails papers (some cur) input).persisted = false ∧
    ∃ m, (savePaperDetails papers (some cur) input).notification =
      some (m, NotifKind.error) := by
  unfold savePaperDetails
  by_cases h1 : (input.authors.isEmpty || input.journal == "" ||
      (input.year.getD 0) == 0) = true
  · simp [h1]
  · have h2 := h.resolve_left h1
    simp [h1, h2]

/-- C1: every structured edit whose fields fail the required-field
policy (authors empty, venue empty, year absent, or year outside
`[1900, 2030]`) is rejected with a validation-error notification and
leaves the papers array unchanged; an edit with year 1899 fails, while
year 1900 or 2030 (other required fields valid, target id present)
succeeds. -/
theorem savePaperDetails_validation (papers : List Paper) (cur : Paper)
    (input : EditInput) :
    (failsRequiredPolicy input = true →
      (savePaperDetails papers (some cur) input).papers = papers ∧
      (savePaperDetails papers (some cur) input).persisted = false ∧
      ∃ m, (savePaperDetails papers (some cur) input).notification =
        some (m, NotifKind.error)) ∧
    (input.year = some 1899 →
      (savePaperDetails papers (some cur) input).papers = papers ∧
      ∃ m, (savePaperDetails papers (some cur) input).notification =
        some (m, NotifKind.error)) ∧
    ((input.year = some 1900 ∨ input.year = some 2030) →
      input.authors ≠ [] → input.journal ≠ "" →
      (∃ p ∈ papers, p.id = cur.id) →
      ∃ m, (savePaperDetails papers (some cur) input).notification =
        some (m, NotifKind.success)) := by
  refine ⟨?_, ?_, ?_⟩
  · intro h
    apply savePaperDetails_rejected_of_cond
    unfold failsRequiredPolicy at h
    by_cases h1 : (input.authors.isEmpty || input.journal == "" ||
        (input.year.getD 0) == 0) = true
    · exact Or.inl h1
    · right
      simp only [Bool.not_eq_true, Bool.or_eq_false_iff] at h1
      obtain ⟨⟨ha, hj⟩, hy0⟩ := h1
      simp only [ha, hj, Bool.false_or, Bool.or_eq_true] at h
      cases hy2 : input.year with
      | none => rw [hy2] at hy0; simp at hy0
      | some y => rw [hy2] at h; simpa using h
  · intro hy
    have H := savePaperDetails_rejected_of_cond papers cur input
      (Or.inr (by rw [hy]; decide))
    exact ⟨H.1, H.2.2⟩
  · intro hy ha hj hfound
    unfold savePaperDetails
    have hje : (input.journal == "") = false := by simp [hj]
    have hae : input.authors.isEmpty = false := by
      simp [List.isEmpty_eq_false, ha]
    have hy0 : ((input.year.getD 0) == 0) = false := by
      rcases hy with hy | hy <;> rw [hy] <;> decide
    have h1 : (input.authors.isEmpty || input.journal == "" ||
        (input.year.getD 0) == 0) = false := by
      simp [hae, hje, hy0]
    have h2 : (decide ((input.year.getD 0) < 1900) ||
        decide ((input.year.getD 0) > 2030)) = false := by
      rcases hy with hy | hy <;> rw [hy] <;> decide
    cases hidx : papers.findIdx? (fun p => p.id == cur.id) with
    | none =>
      exfalso
      rw [List.findIdx?_eq_none_iff] at hidx
      obtain ⟨p, hp, hpid⟩ := hfound
      have := hidx p hp
      simp [hpid] at this
    | some i => simp [h1, h2, hidx]

/-- A concrete sample record used to instantiate theorems. -/
def samplePaper : Paper :=
  { id := some (.str "paper_1700000000000_abc123def"),
    title := "Deep Learning for Literature Review",
    authors := ["A. Smith"], year := 2020, journal := "Nature",
    researchArea := "General", methodology := "Experimental",
    studyType := "Empirical", citations := 9 }

/-- A concrete edit form with every required field missing. -/
def editInputBad : EditInput := {}

/-- A concrete edit form with year 1899 and the rest valid. -/
def editInput1899 : EditInput :=
  { authors := ["A. Smith"], journal := "Nature", year := some 1899,
    citations := some 12, downloads := some 3 }

/-- A concrete edit form with year 1900 and the rest valid. -/
def editInput1900 : EditInput :=
  { authors := ["A. Smith"], journal := "Nature", year := some 1900,
    citations := some 12, downloads := some 3 }

/-- Witness for C1 at concrete inputs. -/
theorem savePaperDetails_validation_witness :
    ((savePaperDetails [samplePaper] (some samplePaper) editInputBad).papers
        = [samplePaper] ∧
      (savePaperDetails [samplePaper] (some samplePaper)
        editInputBad).persisted = false ∧
      ∃ m, (savePaperDetails [samplePaper] (some samplePaper)
        editInputBad).notification = some (m, NotifKind.error)) ∧
    ((savePaperDetails [samplePaper] (some samplePaper) editInput1899).papers
        = [samplePaper] ∧
      ∃ m, (savePaperDetails [samplePaper] (some samplePaper)
        editInput1899).notification = some (m, NotifKind.error)) ∧
    (∃ m, (savePaperDetails [samplePaper] (some samplePaper)
        editInput1900).notification = some (m, NotifKind.success)) :=
  ⟨(savePaperDetails_validation [samplePaper] samplePaper editInputBad).1
      (by decide),
   (savePaperDetails_validation [samplePaper] samplePaper editInput1899).2.1
      (by decide),
   (savePaperDetails_validation [samplePaper] samplePaper editInput1900).2.2
      (Or.inl (by decide)) (by decide) (by decide)
      ⟨samplePaper, by simp, rfl⟩⟩

/-- C3: after any successful structured edit, the stored record's
`hIndex` equals `floor(citations / 3)` computed from the citations
value set by that edit. -/
theorem savePaperDetails_hIndex (papers : List Paper) (cur : Paper)
    (input : EditInput)
    (h : (savePaperDetails papers (some cur) input).persisted = true) :
    ∃ p, (savePaperDetails papers (some cur) input).currentEditingPaper
        = some p ∧
      p ∈ (savePaperDetails papers (some cur) input).papers ∧
      p.citations = input.citations.getD 0 ∧
      p.hIndex = Int.fdiv p.citations 3 := by
  unfold savePaperDetails at h ⊢
  by_cases h1 : (input.authors.isEmpty || input.journal == "" ||
      (input.year.getD 0) == 0) = true
  · simp [h1] at h
  · by_cases h2 : (decide ((input.year.getD 0) < 1900) ||
        decide ((input.year.getD 0) > 2030)) = true
    · simp [h1, h2] at h
    · cases hidx : papers.findIdx? (fun p => p.id == cur.id) with
      | none => simp [h1, h2, hidx] at h
      | some i =>
        have hlen : i < papers.length :=
          (List.findIdx?_eq_some_iff_findIdx_eq.mp hidx).1
        have hset : i < (papers.set i (savedFrom cur input)).length := by
          simpa [List.length_set] using hlen
        have hmem : savedFrom cur input ∈ papers.set i (savedFrom cur input) := by
          have hx := List.getElem_mem hset
          rwa [List.getElem_set_self] at hx
        refine ⟨savedFrom cur input, ?_, ?_, rfl, rfl⟩ <;> simp [h1, h2, hidx, hmem]

/-- Witness for C3 at a concrete successful edit. -/
theorem savePaperDetails_hIndex_witness :
    ∃ p, (savePaperDetails [samplePaper] (some samplePaper)
        editInput1900).currentEditingPaper = some p ∧
      p ∈ (savePaperDetails [samplePaper] (some samplePaper)
        editInput1900).papers ∧
      p.citations = editInput1900.citations.getD 0 ∧
      p.hIndex = Int.fdiv p.citations 3 :=
  savePaperDetails_hIndex [samplePaper] samplePaper editInput1900 (by decide)

/-- C10: a structured edit whose fields pass validation but whose
target id is not in the collection is a silent no-op: papers array,
persistence and filters untouched, and no notification of any kind. -/
theorem savePaperDetails_missing_id_noop (papers : List Paper) (cur : Paper)
    (input : EditInput)
    (hval : failsRequiredPolicy input = false)
    (hmiss : ∀ p ∈ papers, p.id ≠ cur.id) :
    savePaperDetails papers (some cur) input =
      { papers := papers, currentEditingPaper := some cur, persisted := false,
        filtersReapplied := false, notification := none } := by
  obtain ⟨ha, hj, y, hy, hy1, hy2⟩ := failsRequiredPolicy_false_elim input hval
  unfold savePaperDetails
  have h1 : (input.authors.isEmpty || input.journal == "" ||
      (input.year.getD 0) == 0) = false := by
    simp only [hy, Option.getD_some, ha, hj, Bool.false_or,
      beq_eq_false_iff_ne, ne_eq]
    omega
  have h2 : (decide ((input.year.getD 0) < 1900) ||
      decide ((input.year.getD 0) > 2030)) = false := by
    simp only [hy, Option.getD_some, Bool.or_eq_false_iff,
      decide_eq_false_iff_not, not_lt]
    omega
  have hidx : papers.findIdx? (fun p => p.id == cur.id) = none := by
    rw [List.findIdx?_eq_none_iff]
    intro p hp
    simpa using hmiss p hp
  simp [h1, h2, hidx]

/-- A record id that does not occur in `[samplePaper]`. -/
def ghostPaper : Paper :=
  { samplePaper with id := some (.str "paper_9999999999999_zzz") }

/-- Witness for C10 at a concrete absent id. -/
theorem savePaperDetails_missing_id_noop_witness :
    savePaperDetails [samplePaper] (some ghostPaper) editInput1900 =
      { papers := [samplePaper], currentEditingPaper := some ghostPaper,
        persisted := false, filtersReapplied := false, notification := none } :=
  savePaperDetails_missing_id_noop [samplePaper] ghostPaper editInput1900
    (by decide) (by decide)

/-- JS substring containment (`String.prototype.includes`). -/
def strIncludes (s pat : String) : Bool :=
  decide (pat.data <:+: s.data)

/-- JS `String.prototype.toLowerCase`, modelled characterwise. -/
def jsToLower (s : String) : String :=
  String.mk (s.data.map Char.toLower)

/-- `' '.join`-style concatenation used by the template literal
`authors.join(' ')` / `keywords.join(' ')`. -/
def joinSpace (l : List String) : String :=
  String.intercalate " " l

/-- The Filter State held in `this.filters` (`src/app.js` lines
22-31): `search` is stored already lower-cased by the input handler
(line 275), `citationMin`/`citationMax` are `null` when inactive. -/
structure Filters where
  search : String := ""
  category : String := "all"
  yearMin : Int := 2000
  yearMax : Int := 2024
  methodologies : List String := []
  studyTypes : List String := []
  venue : String := ""
  citationMin : Option Int := none
  citationMax : Option Int := none
deriving DecidableEq, Repr

/-- The search haystack of `applyFilters` (`src/app.js` line 603):
`` `${title} ${authors.join(' ')} ${abstract} ${keywords.join(' ')}`.toLowerCase() ``. -/
def searchHaystack (p : Paper) : String :=
  jsToLower (p.title ++ " " ++ joinSpace p.authors ++ " " ++ p.abstract ++
    " " ++ joinSpace p.keywords)

/-- The per-record predicate of `applyFilters` (`src/app.js` lines
599-642), with each early `return false` turned into a conjunct. -/
def paperMatchesFilters (f : Filters) (p : Paper) : Bool :=
  (f.search == "" || strIncludes (searchHaystack p) f.search) &&
  (f.category == "all" || p.researchArea == f.category) &&
  !(decide (p.year < f.yearMin) || decide (p.year > f.yearMax)) &&
  (f.methodologies.isEmpty || f.methodologies.contains p.methodology) &&
  (f.studyTypes.isEmpty || f.studyTypes.contains p.studyType) &&
  (f.venue == "" || p.journal == f.venue) &&
  (match f.citationMin with
   | none => true
   | some m => !(decide (p.citations < m))) &&
  (match f.citationMax with
   | none => true
   | some m => !(decide (p.citations > m)))

/-- The `filteredPapers` computation of `applyFilters`
(`src/app.js` lines 599-642): `this.papers.filter(...)`. -/
def applyFilters (papers : List Paper) (f : Filters) : List Paper :=
  papers.filter (paperMatchesFilters f)

/-- The search-box handler (`src/app.js` line 275):
`this.filters.search = e.target.value.toLowerCase()`. -/
def setSearchFilter (f : Filters) (query : String) : Filters :=
  { f with search := jsToLower query }

/-- The conjunction of active predicates as §3/§4.4 of the spec words
it: text query (case-insensitive over the concatenation of title,
authors, abstract and keywords), category, inclusive year range,
methodology set, study-type set, venue, citation range. -/
def specFilterPred (f : Filters) (p : Paper) : Bool :=
  (f.search == "" ||
    strIncludes
      (jsToLower (p.title ++ " " ++ joinSpace p.authors ++ " " ++ p.abstract ++
        " " ++ joinSpace p.keywords)) (jsToLower f.search)) &&
  (f.category == "all" || p.researchArea == f.category) &&
  (decide (f.yearMin ≤ p.year) && decide (p.year ≤ f.yearMax)) &&
  (f.methodologies.isEmpty || f.methodologies.contains p.methodology) &&
  (f.studyTypes.isEmpty || f.studyTypes.contains p.studyType) &&
  (f.venue == "" || p.journal == f.venue) &&
  (match f.citationMin with
   | none => true
   | some m => decide (m ≤ p.citations)) &&
  (match f.citationMax with
   | none => true
   | some m => decide (p.citations ≤ m))

/-- Boolean form of the year-range check of `applyFilters`. -/
theorem jsYearRange (a b c : Int) :
    (!(decide (a < b) || decide (a > c))) =
      (decide (b ≤ a) && decide (a ≤ c)) := by
  rw [← Bool.decide_or, ← decide_not, ← Bool.decide_and, decide_eq_decide]
  omega

/-- Boolean form of the `citations < min` check of `applyFilters`. -/
theorem jsNotLt (a m : Int) : (!decide (a < m)) = decide (m ≤ a) := by
  rw [← decide_not, decide_eq_decide]
  omega

/-- Boolean form of the `citations > max` check of `applyFilters`. -/
theorem jsNotGt (a m : Int) : (!decide (a > m)) = decide (a ≤ m) := by
  rw [← decide_not, decide_eq_decide]
  omega

/-- Pointwise, the code's filter predicate is the spec's conjunction of
active predicates, provided the stored query is already lower-cased
(which the search handler guarantees). -/
theorem paperMatchesFilters_eq_spec (f : Filters) (p : Paper)
    (hq : jsToLower f.search = f.search) :
    paperMatchesFilters f p = specFilterPred f p := by
  unfold paperMatchesFilters specFilterPred searchHaystack
  rw [hq, jsYearRange]
  cases f.citationMin <;> cases f.citationMax <;> simp [jsNotLt, jsNotGt]

/-- C4: `applyFilters` returns exactly the records satisfying the
conjunction (AND) of all active predicates — text query
(case-insensitive over title ++ authors ++ abstract ++ keywords),
category, inclusive year range, methodology set, study-type set,
venue, citation range — and never mutates stored records (the result
is a sublist of the collection).  The hypothesis records that the
stored query is lower-cased, which the search handler guarantees. -/
theorem applyFilters_conjunction (papers : List Paper) (f : Filters)
    (hq : jsToLower f.search = f.search) :
    applyFilters papers f = papers.filter (specFilterPred f) ∧
    (applyFilters papers f).Sublist papers := by
  constructor
  · unfold applyFilters
    exact List.filter_congr (fun p _ => paperMatchesFilters_eq_spec f p hq)
  · exact List.filter_sublist papers

/-- Concrete sample filter state (already lower-cased query). -/
def sampleFilters : Filters :=
  { search := "deep", category := "all", yearMin := 2000, yearMax := 2024,
    methodologies := [], studyTypes := [], venue := "",
    citationMin := some 5, citationMax := none }

/-- Witness for C4 at a concrete collection and filter state. -/
theorem applyFilters_conjunction_witness :
    applyFilters [samplePaper, ghostPaper] sampleFilters =
        [samplePaper, ghostPaper].filter (specFilterPred sampleFilters) ∧
      (applyFilters [samplePaper, ghostPaper] sampleFilters).Sublist
        [samplePaper, ghostPaper] :=
  applyFilters_conjunction [samplePaper, ghostPaper] sampleFilters (by decide)

/-- The fallback (`localStorage`) branch of `saveData` (`src/app.js`
lines 239-254): every record is spread with `pdfFile: undefined` and
`thumbnail: paper.thumbnail && paper.thumbnail.length < 50000 ?
paper.thumbnail : null`. -/
def saveDataFallbackPayload (papers : List Paper) : List Paper :=
  papers.map (fun p =>
    { p with
      pdfFile := none
      thumbnail :=
        match p.thumbnail with
        | some t =>
          if !(t == "") && decide (t.length < 50000) then some t else none
        | none => none })

/-- A thumbnail of exactly 50,000 encoded characters. -/
def bigThumb : String := String.mk (List.replicate 50000 'a')

/-- Counterexample to C5 as stated: a record whose thumbnail has
exactly 50,000 encoded characters — which does not exceed 50,000 — has
its thumbnail dropped by the fallback save path. -/
theorem saveDataFallback_boundary_cex :
    bigThumb.length = 50000 ∧
    (saveDataFallbackPayload [{ thumbnail := some bigThumb }]).map
        Paper.thumbnail = [none] := by
  have hlen : bigThumb.length = 50000 := by
    show (List.replicate 50000 'a').length = 50000
    rw [List.length_replicate]
  have hcond : (!(bigThumb == "") && decide (bigThumb.length < 50000)) =
      false := by
    rw [hlen]
    simp
  refine ⟨hlen, ?_⟩
  have hstep : saveDataFallbackPayload [{ thumbnail := some bigThumb }] =
      [({ thumbnail := if !(bigThumb == "") && decide (bigThumb.length < 50000)
            then some bigThumb else none } : Paper)] := rfl
  rw [hstep, hcond]
  rfl

/-- C5 (amended): in the fallback save payload the binary payload
field is always absent, and the thumbnail is kept exactly when it is
present, non-empty and strictly below 50,000 encoded characters
(so one of exactly 50,000 characters is dropped). -/
theorem saveDataFallback_amended (papers : List Paper) (i : Nat)
    (h : i < papers.length) :
    ∃ p q, papers[i]? = some p ∧
      (saveDataFallbackPayload papers)[i]? = some q ∧
      q.pdfFile = none ∧
      q.thumbnail = (match p.thumbnail with
        | some t => if t ≠ "" ∧ t.length < 50000 then some t else none
        | none => none) ∧
      (∀ t, p.thumbnail = some t → t ≠ "" → t.length < 50000 →
        q.thumbnail = some t) := by
  have hp : papers[i]? = some papers[i] := List.getElem?_eq_getElem h
  refine ⟨papers[i],
    { papers[i] with
      pdfFile := none
      thumbnail := match papers[i].thumbnail with
        | some t =>
          if !(t == "") && decide (t.length < 50000) then some t else none
        | none => none }, hp, ?_, rfl, ?_, ?_⟩
  · unfold saveDataFallbackPayload
    rw [List.getElem?_map, hp]
    rfl
  · cases ht : papers[i].thumbnail with
    | none => simp [ht]
    | some t =>
      by_cases h1 : t = ""
      · simp [ht, h1]
      · by_cases h2 : t.length < 50000
        · simp [ht, h1, h2]
        · simp [ht, h1, h2]
  · intro t ht h1 h2
    simp [ht, h1, h2]

/-- Witness for the amended C5 at a concrete record with a small
thumbnail. -/
theorem saveDataFallback_amended_witness :
    ∃ p q, [({ thumbnail := some "abc" } : Paper)][0]? = some p ∧
      (saveDataFallbackPayload [({ thumbnail := some "abc" } : Paper)])[0]? =
        some q ∧
      q.pdfFile = none ∧
      q.thumbnail = (match p.thumbnail with
        | some t => if t ≠ "" ∧ t.length < 50000 then some t else none
        | none => none) ∧
      (∀ t, p.thumbnail = some t → t ≠ "" → t.length < 50000 →
        q.thumbnail = some t) :=
  saveDataFallback_amended [{ thumbnail := some "abc" }] 0 (by decide)

/-- Oracles for the migration loop's store effects: whether
`storage.savePaper` / `storage.saveThumbnail` succeed (a `false` stands
for a thrown error, caught per record), and the generated id for
records whose id is falsy. -/
structure MigrationEnv where
  savePaperOk : Paper → Bool
  saveThumbnailOk : Paper → Bool
  freshIds : Nat → String

/-- One iteration of the migration loop body (`src/app.js` lines
179-197): assign an id when falsy, `savePaper`, then `saveThumbnail`
when a thumbnail is present; the record counts as migrated iff neither
store call threw. -/
def migrateOne (env : MigrationEnv) (k : Nat) (p : Paper) : Paper × Bool :=
  let p2 := if jsIdFalsy p.id then
    { p with id := some (.str (env.freshIds k)) } else p
  (p2, env.savePaperOk p2 &&
    (!(jsStrTruthy p2.thumbnail) || env.saveThumbnailOk p2))

/-- The migration loop over the in-memory papers: returns the records
after in-place id assignment, the number of iterations run, and
`migratedCount`.  A failed record does not stop the recursion —
the `catch` only logs. -/
def migrateLoop (env : MigrationEnv) (k : Nat) :
    List Paper → List Paper × Nat × Nat
  | [] => ([], 0, 0)
  | p :: rest =>
    let (p2, ok) := migrateOne env k p
    let (ps, att, cnt) := migrateLoop env (k + 1) rest
    (p2 :: ps, att + 1, (if ok then 1 else 0) + cnt)

/-- Observable result of `migrateToIndexedDB`: papers, number of
records the loop attempted, the success counter, and the Fallback
Store payload (`localStorage['literaturePapers']`) afterwards. -/
structure MigrationResult where
  papers : List Paper
  attempted : Nat
  migratedCount : Nat
  fallbackPayload : Option (List Paper)
deriving Repr

/-- `migrateToIndexedDB` (`src/app.js` lines 170-212): early return
when the store is uninitialized or the collection is empty; otherwise
run the loop and, iff `migratedCount > 0`, remove the Fallback Store
payload. -/
def migrateToIndexedDB (storageInitialized : Bool) (papers : List Paper)
    (fallback : Option (List Paper)) (env : MigrationEnv) : MigrationResult :=
  if !storageInitialized || papers.isEmpty then
    ⟨papers, 0, 0, fallback⟩
  else
    let r := migrateLoop env 0 papers
    ⟨r.1, r.2.1, r.2.2, if r.2.2 > 0 then none else fallback⟩

/-- The loop attempts every record, whatever the per-record
outcomes. -/
theorem migrateLoop_attempts_all (env : MigrationEnv) (l : List Paper) :
    ∀ k, (migrateLoop env k l).2.1 = l.length := by
  induction l with
  | nil => intro k; rfl
  | cons p rest ih =>
    intro k
    simp only [migrateLoop, List.length_cons]
    rw [ih (k + 1)]

/-- C6: over a non-empty collection with the store initialized, a
failure on one record does not halt the Migration Routine (the loop
attempts exactly one iteration per record), and the Fallback Store
payload ends up cleared if and only if the success counter is
positive. -/
theorem migrateToIndexedDB_partial_failure (papers : List Paper)
    (payload : List Paper) (env : MigrationEnv) (h : papers ≠ []) :
    (migrateToIndexedDB true papers (some payload) env).attempted =
      papers.length ∧
    ((migrateToIndexedDB true papers (some payload) env).fallbackPayload =
        none ↔
      0 < (migrateToIndexedDB true papers (some payload) env).migratedCount)
    := by
  have hne : papers.isEmpty = false := by simp [List.isEmpty_eq_false, h]
  unfold migrateToIndexedDB
  simp only [hne, Bool.not_true, Bool.false_or, Bool.false_eq_true,
    if_false, reduceIte]
  constructor
  · exact migrateLoop_attempts_all env papers 0
  · by_cases hc : (migrateLoop env 0 papers).2.2 > 0
    · simp [hc]
    · simp [hc]

/-- Oracles for the C6 witness: the first record fails to save, every
other one succeeds. -/
def sampleMigrationEnv : MigrationEnv :=
  { savePaperOk := fun p => !(p.id == samplePaper.id)
    saveThumbnailOk := fun _ => true
    freshIds := fun k => "paper_1700000000000_m" ++ toString k }

/-- Witness for C6: two records, the first fails, the loop still
attempts both and the payload is cleared. -/
theorem migrateToIndexedDB_partial_failure_witness :
    (migrateToIndexedDB true [samplePaper, ghostPaper]
        (some [samplePaper]) sampleMigrationEnv).attempted = 2 ∧
    ((migrateToIndexedDB true [samplePaper, ghostPaper]
        (some [samplePaper]) sampleMigrationEnv).fallbackPayload = none ↔
      0 < (migrateToIndexedDB true [samplePaper, ghostPaper]
        (some [samplePaper]) sampleMigrationEnv).migratedCount) :=
  migrateToIndexedDB_partial_failure [samplePaper, ghostPaper] [samplePaper]
    sampleMigrationEnv (by decide)

/-- JS `a || b` over possibly-absent strings: first operand wins when
present and truthy (non-empty). -/
def jsStrOr (a b : Option String) : Option String :=
  match a with
  | some s => if s == "" then b else some s
  | none => b

/-- JS `a || b` over possibly-absent numbers: first operand wins when
present and truthy (non-zero). -/
def jsNumOr (a b : Option Int) : Option Int :=
  match a with
  | some v => if v == 0 then b else some v
  | none => b

/-- `split(/[,;]/).map(s => s.trim())`. -/
def splitTrimCommaSemi (s : String) : List String :=
  (s.split (fun c => c == ',' || c == ';')).map String.trim

/-- The raw duck-typed record handed to `normalizepaperData`
(`src/app.js` lines 1883-1912), one field per JS key the function
reads (`xCap` naming the capitalised alternate spelling, e.g.
`data['Title']`).  `authors`/`keywords` may be an array or a string
(`Array.isArray` dispatch); numeric fields hold the integer the
`parseInt` coercion yields, `none` when the key is absent, falsy, or
unparseable.  Note the function never reads `data.id`. -/
structure RawPaperData where
  title : Option String := none
  titleCap : Option String := none
  authors : Option (List String ⊕ String) := none
  authorsCap : Option String := none
  year : Option Int := none
  yearCap : Option Int := none
  journal : Option String := none
  journalCap : Option String := none
  venue : Option String := none
  researchArea : Option String := none
  researchField : Option String := none
  methodology : Option String := none
  methodCap : Option String := none
  studyType : Option String := none
  typeCap : Option String := none
  keywords : Option (List String ⊕ String) := none
  keywordsCap : Option String := none
  citations : Option Int := none
  citationsCap : Option Int := none
  hIndex : Option Int := none
  hIndexCap : Option Int := none
  downloads : Option Int := none
  downloadsCap : Option Int := none
  abstract : Option String := none
  abstractCap : Option String := none
  doi : Option String := none
  doiCap : Option String := none
  pdfUrl : Option String := none
  pdfLinkCap : Option String := none
  websiteUrl : Option String := none
  websiteLinkCap : Option String := none
deriving Repr

/-- `normalizepaperData` (`src/app.js` lines 1883-1912).  The id is
`this.papers.length + 1` unconditionally; every other field is an
`||`-default chain over the recognized key spellings. -/
def normalizepaperData (papers : List Paper) (data : RawPaperData)
    (selectedCategory : String) (currentYear : Int) : Paper :=
  let researchArea :=
    if selectedCategory == "auto" then
      (jsStrOr data.researchArea data.researchField).getD "General"
    else selectedCategory
  { id := some (.num (papers.length + 1))
    title := (jsStrOr data.title data.titleCap).getD "Untitled"
    authors :=
      match data.authors with
      | some (.inl arr) => arr
      | some (.inr s) =>
        splitTrimCommaSemi ((jsStrOr (some s) data.authorsCap).getD "Unknown")
      | none =>
        splitTrimCommaSemi ((jsStrOr none data.authorsCap).getD "Unknown")
    year := (jsNumOr data.year data.yearCap).getD currentYear
    journal :=
      (jsStrOr data.journal (jsStrOr data.journalCap data.venue)).getD
        "Unknown Journal"
    researchArea := researchArea
    methodology := (jsStrOr data.methodology data.methodCap).getD "Experimental"
    studyType := (jsStrOr data.studyType data.typeCap).getD "Empirical"
    keywords :=
      match data.keywords with
      | some (.inl arr) => arr
      | some (.inr s) =>
        (splitTrimCommaSemi ((jsStrOr (some s) data.keywordsCap).getD
          "")).filter (fun k => !(k == ""))
      | none =>
        (splitTrimCommaSemi ((jsStrOr none data.keywordsCap).getD
          "")).filter (fun k => !(k == ""))
    citations := (jsNumOr data.citations data.citationsCap).getD 0
    hIndex := (jsNumOr data.hIndex data.hIndexCap).getD 0
    downloads := (jsNumOr data.downloads data.downloadsCap).getD 0
    abstract := (jsStrOr data.abstract data.abstractCap).getD ""
    doi := (jsStrOr data.doi data.doiCap).getD ""
    pdfUrl := some ((jsStrOr data.pdfUrl data.pdfLinkCap).getD "#")
    websiteUrl := some ((jsStrOr data.websiteUrl data.websiteLinkCap).getD "#")
    thumbnail := none
    pdfFile := none }

/-- The id-assignment and in-memory append of `addPaper`
(`src/app.js` lines 1941-1999): a falsy id is replaced by
`'paper_' + Date.now() + '_' + <random suffix>` and the record is
pushed onto `this.papers` (the store writes in between do not touch
the array). -/
def addPaper (papers : List Paper) (now : Nat) (suffix : String)
    (paperData : Paper) : List Paper :=
  let withId :=
    if jsIdFalsy paperData.id then
      { paperData with
        id := some (.str ("paper_" ++ toString now ++ "_" ++ suffix)) }
    else paperData
  papers ++ [withId]

/-- A prior in-memory state whose single record carries the numeric id
2 (an id loaded from an earlier session or a static import). -/
def dupStatePapers : List Paper := [{ samplePaper with id := some (.num 2) }]

/-- Counterexample to C2 as stated: adding a file-parsed record to a
one-element collection whose record has numeric id 2 assigns the new
record `papers.length + 1 = 2`, so the resulting collection's ids are
not unique. -/
theorem addPaper_unique_id_cex :
    ¬ (((addPaper dupStatePapers 1700000000000 "abc123def"
        (normalizepaperData dupStatePapers {} "auto" 2025)).map
          Paper.id).Nodup) := by decide

/-- Helper: appending one fresh element preserves `Nodup`. -/
theorem nodup_append_singleton {α : Type} (l : List α) (x : α)
    (h1 : l.Nodup) (h2 : x ∉ l) : (l ++ [x]).Nodup := by
  rw [List.nodup_append]
  refine ⟨h1, List.nodup_singleton x, ?_⟩
  intro a ha hb
  simp only [List.mem_singleton] at hb
  subst hb
  exact h2 ha

/-- C2 (amended): an id produced by the add operation is
`papers.length + 1` on the file-parse/manual path and
`paper_<timestamp>_<suffix>` on the direct path when the id is
absent; it is unique across the collection provided every numeric id
already present is at most the collection's length and the generated
string id is not already present — true for collections built by
successive adds from empty, but not for arbitrary prior states. -/
theorem addPaper_unique_id_amended (papers : List Paper)
    (data : RawPaperData) (cat : String) (cy : Int)
    (now : Nat) (suffix : String) (pd : Paper)
    (hnodup : (papers.map Paper.id).Nodup)
    (hnum : ∀ p ∈ papers, ∀ n, p.id = some (PaperId.num n) →
      n ≤ papers.length)
    (hstr : some (PaperId.str ("paper_" ++ toString now ++ "_" ++ suffix)) ∉
      papers.map Paper.id) :
    ((addPaper papers now suffix
        (normalizepaperData papers data cat cy)).map Paper.id).Nodup ∧
    (jsIdFalsy pd.id = true →
      ((addPaper papers now suffix pd).map Paper.id).Nodup) := by
  constructor
  · have hid : jsIdFalsy (normalizepaperData papers data cat cy).id = false := by
      show ((papers.length + 1 : Nat) == 0) = false
      simp
    unfold addPaper
    rw [hid]
    simp only [Bool.false_eq_true, if_false, List.map_append, List.map_cons,
      List.map_nil]
    apply nodup_append_singleton _ _ hnodup
    intro hmem
    rw [List.mem_map] at hmem
    obtain ⟨p, hp, hpe⟩ := hmem
    have hle := hnum p hp (papers.length + 1) hpe
    omega
  · intro hfal
    unfold addPaper
    rw [hfal]
    simp only [if_true, List.map_append, List.map_cons, List.map_nil]
    exact nodup_append_singleton _ _ hnodup hstr

/-- Witness for the amended C2 at a concrete one-record collection. -/
theorem addPaper_unique_id_amended_witness :
    (((addPaper [samplePaper] 1700000000001 "xyz"
        (normalizepaperData [samplePaper] {} "auto" 2025)).map
          Paper.id).Nodup) ∧
    (jsIdFalsy ({} : Paper).id = true →
      ((addPaper [samplePaper] 1700000000001 "xyz" ({} : Paper)).map
        Paper.id).Nodup) :=
  addPaper_unique_id_amended [samplePaper] {} "auto" 2025 1700000000001 "xyz"
    {} (by decide)
    (by
      intro p hp n hn
      rw [List.mem_singleton] at hp
      subst hp
      simp [samplePaper] at hn)
    (by decide)

/-- One prepared release asset (`preparePDFFiles`,
`deploy-to-github.md` export module, lines 300-334):
`standardFileName` is always `<paper.id>.pdf`. -/
structure PdfAsset where
  paperId : Option PaperId
  fileName : String
  standardFileName : String
  blob : String
deriving DecidableEq, Repr

/-- Modelled from the spec: the Hosted Release API reply of
`uploadAsset(releaseId, fileName, binary) -> {downloadUrl}` (§6) —
the fetch and the remote endpoint are outside this repository.
`tag_name` models the JS read `result.tag_name` on that reply: the §6
reply shape carries no tag field, so for hosted-release replies it is
`none` (JS `undefined`). -/
structure AssetResponse where
  browser_download_url : String
  tag_name : Option String := none
deriving DecidableEq, Repr

/-- An itemized upload outcome as pushed by `uploadPDFs`
(`src/github-releases-uploader.js` lines 71-95); the success object
carries `downloadUrl`/`cdnUrl`, the failure object carries `error`
(absent fields are `none`, as in the JS objects). -/
structure UploadOutcome where
  success : Bool
  fileName : String
  paperId : Option PaperId
  downloadUrl : Option String := none
  cdnUrl : Option String := none
  error : Option String := none
deriving DecidableEq, Repr

/-- JS `v || 'default'` on a possibly-undefined string. -/
def jsStrOrD (v : Option String) (d : String) : String :=
  match v with
  | some s => if s == "" then d else s
  | none => d

/-- The jsDelivr URL template of `uploadPDFs`
(`src/github-releases-uploader.js` line 76). -/
def mkCdnUrl (owner repo tag fileName : String) : String :=
  "https://cdn.jsdelivr.net/gh/" ++ owner ++ "/" ++ repo ++ "@" ++ tag ++
    "/" ++ fileName

/-- `uploadPDFs` (`src/github-releases-uploader.js` lines 61-113):
sequential loop over the assets; each iteration pushes exactly one
outcome — success with `downloadUrl` and `cdnUrl` built from
`result.tag_name || 'latest'`, or failure with the error message — and
a throw from `uploadAsset` is caught per iteration, so the loop always
continues.  `uploadAsset` is the effect oracle, indexed by position. -/
def uploadPDFs (owner repo : String)
    (uploadAsset : Nat → PdfAsset → Except String AssetResponse) :
    Nat → List PdfAsset → List UploadOutcome
  | _, [] => []
  | i, f :: rest =>
    (match uploadAsset i f with
      | .ok result =>
        { success := true
          fileName := f.standardFileName
          paperId := f.paperId
          downloadUrl := some result.browser_download_url
          cdnUrl := some (mkCdnUrl owner repo
            (jsStrOrD result.tag_name "latest") f.standardFileName) }
      | .error e =>
        { success := false
          fileName := f.standardFileName
          paperId := f.paperId
          error := some e }) :: uploadPDFs owner repo uploadAsset (i + 1) rest

/-- C7 core, generalized over the loop's starting index. -/
theorem uploadPDFs_itemized_from (owner repo : String)
    (uploadAsset : Nat → PdfAsset → Except String AssetResponse)
    (files : List PdfAsset) :
    ∀ j, (uploadPDFs owner repo uploadAsset j files).length = files.length ∧
      ∀ i (h : i < files.length),
        ∃ out, (uploadPDFs owner repo uploadAsset j files)[i]? = some out ∧
          out.fileName = (files.get ⟨i, h⟩).standardFileName ∧
          out.paperId = (files.get ⟨i, h⟩).paperId ∧
          (out.success = true ↔
            ∃ r, uploadAsset (j + i) (files.get ⟨i, h⟩) = .ok r) := by
  induction files with
  | nil =>
    intro j
    refine ⟨rfl, ?_⟩
    intro i h
    exact absurd h (by simp)
  | cons f rest ih =>
    intro j
    constructor
    · simp only [uploadPDFs, List.length_cons]
      rw [(ih (j + 1)).1]
    · intro i h
      cases i with
      | zero =>
        cases hu : uploadAsset j f with
        | ok r =>
          refine ⟨{ success := true
                    fileName := f.standardFileName
                    paperId := f.paperId
                    downloadUrl := some r.browser_download_url
                    cdnUrl := some (mkCdnUrl owner repo
                      (jsStrOrD r.tag_name "latest") f.standardFileName) },
            ?_, rfl, rfl, ?_⟩
          · simp [uploadPDFs, hu]
          · simp [hu]
        | error e =>
          refine ⟨{ success := false
                    fileName := f.standardFileName
                    paperId := f.paperId
                    error := some e },
            ?_, rfl, rfl, ?_⟩
          · simp [uploadPDFs, hu]
          · simp [hu]
      | succ i2 =>
        have h2 : i2 < rest.length := by
          simpa [Nat.succ_lt_succ_iff] using h
        obtain ⟨out, ho, h3, h4, h5⟩ := (ih (j + 1)).2 i2 h2
        refine ⟨out, ?_, h3, h4, ?_⟩
        · simpa [uploadPDFs, List.getElem?_cons_succ] using ho
        · have harith : j + 1 + i2 = j + (i2 + 1) := by omega
          rw [← harith]
          exact h5

/-- C7: `uploadPDFs` returns exactly one itemized outcome per input
asset, in input order; each outcome is independently marked success or
failure according to its own `uploadAsset` call, so a failure on one
asset does not abort or affect the remaining uploads. -/
theorem uploadPDFs_itemized (owner repo : String)
    (uploadAsset : Nat → PdfAsset → Except String AssetResponse)
    (files : List PdfAsset) :
    (uploadPDFs owner repo uploadAsset 0 files).length = files.length ∧
    ∀ i (h : i < files.length),
      ∃ out, (uploadPDFs owner repo uploadAsset 0 files)[i]? = some out ∧
        out.fileName = (files.get ⟨i, h⟩).standardFileName ∧
        out.paperId = (files.get ⟨i, h⟩).paperId ∧
        (out.success = true ↔
          ∃ r, uploadAsset i (files.get ⟨i, h⟩) = .ok r) := by
  have H := uploadPDFs_itemized_from owner repo uploadAsset files 0
  refine ⟨H.1, ?_⟩
  intro i h
  obtain ⟨out, h1, h2, h3, h4⟩ := H.2 i h
  exact ⟨out, h1, h2, h3, by simpa using h4⟩

/-- Three concrete assets for Scenario D. -/
def sdAssets : List PdfAsset :=
  [⟨some (.str "p1"), "a.pdf", "p1.pdf", "blob1"⟩,
   ⟨some (.str "p2"), "b.pdf", "p2.pdf", "blob2"⟩,
   ⟨some (.str "p3"), "c.pdf", "p3.pdf", "blob3"⟩]

/-- Upload oracle failing exactly on the second asset (simulated
network error). -/
def sdUpload : Nat → PdfAsset → Except String AssetResponse :=
  fun i _ =>
    if i == 1 then .error "Network error"
    else .ok { browser_download_url := "https://github.com/u/r/dl" }

/-- Witness for C7: Scenario D — 3 assets where asset 2 fails yields 3
itemized outcomes with outcomes 1 and 3 marked success. -/
theorem uploadPDFs_itemized_witness :
    ((uploadPDFs "u" "r" sdUpload 0 sdAssets).length = sdAssets.length ∧
      ∃ out, (uploadPDFs "u" "r" sdUpload 0 sdAssets)[1]? = some out ∧
        out.fileName = (sdAssets.get ⟨1, by decide⟩).standardFileName ∧
        out.paperId = (sdAssets.get ⟨1, by decide⟩).paperId ∧
        (out.success = true ↔
          ∃ r, sdUpload 1 (sdAssets.get ⟨1, by decide⟩) = .ok r)) ∧
    (uploadPDFs "u" "r" sdUpload 0 sdAssets).map UploadOutcome.success =
      [true, false, true] :=
  ⟨⟨(uploadPDFs_itemized "u" "r" sdUpload sdAssets).1,
    (uploadPDFs_itemized "u" "r" sdUpload sdAssets).2 1 (by decide)⟩,
   by decide⟩

/-- JS `String.prototype.endsWith`, modelled over the character
list. -/
def strEndsWith (s suffix : String) : Bool :=
  decide (suffix.data <:+ s.data)

/-- The `createRelease` reply used by the deploy flow.  Modelled from
the spec: `createRelease(tag, title, body) -> {id, tag, htmlUrl}`
(§6) — the fetch and the remote endpoint are outside this
repository. -/
structure Release where
  id : Nat
  tag_name : String
  name : String := ""
  html_url : String := ""
deriving DecidableEq, Repr

/-- `updateCDNUrls` (`src/github-releases-uploader.js` lines 174-193):
for every `papers/<...>.json` entry, set `pdfUrl` to the `cdnUrl` of
the first successful upload whose `paperId` equals the record's id;
entries without a matching successful upload are kept unchanged.  The
`tagName` parameter is accepted and never used — as in the source. -/
def updateCDNUrls (jsonFiles : List (String × Paper)) (tagName : String)
    (uploadResults : List UploadOutcome) : List (String × Paper) :=
  let successfulUploads := uploadResults.filter (fun r => r.success)
  jsonFiles.map (fun entry =>
    if strIncludes entry.1 "papers/" && strEndsWith entry.1 ".json" then
      match successfulUploads.find? (fun r => r.paperId == entry.2.id) with
      | some r => (entry.1, { entry.2 with pdfUrl := r.cdnUrl })
      | none => entry
    else entry)

/-- Result shape of `deployToGitHubReleases`
(`src/github-releases-uploader.js` lines 142-168). -/
structure DeployResult where
  success : Bool
  release : Release
  uploadResults : List UploadOutcome
  jsonFiles : List (String × Paper)
  cdnBaseUrl : String
deriving DecidableEq, Repr

/-- `deployToGitHubReleases` (`src/github-releases-uploader.js` lines
116-172): create the release (external call — its §6 reply is the
`release` argument), upload all assets sequentially, then rewrite the
per-paper files via `updateCDNUrls`, passing the release's tag. -/
def deployToGitHubReleases (owner repo : String) (release : Release)
    (uploadAsset : Nat → PdfAsset → Except String AssetResponse)
    (pdfFiles : List PdfAsset) (jsonFiles : List (String × Paper)) :
    DeployResult :=
  if pdfFiles.length > 0 then
    let uploadResults := uploadPDFs owner repo uploadAsset 0 pdfFiles
    { success := true
      release := release
      uploadResults := uploadResults
      jsonFiles := updateCDNUrls jsonFiles release.tag_name uploadResults
      cdnBaseUrl := "https://cdn.jsdelivr.net/gh/" ++ owner ++ "/" ++ repo ++
        "@" ++ release.tag_name ++ "/" }
  else
    { success := true
      release := release
      uploadResults := []
      jsonFiles := jsonFiles
      cdnBaseUrl := "https://cdn.jsdelivr.net/gh/" ++ owner ++ "/" ++ repo ++
        "@" ++ release.tag_name ++ "/" }

/-- Concrete deploy input exhibiting the C8 divergence. -/
def c8Release : Release := { id := 7, tag_name := "v2025.10.12" }

/-- One prepared asset for the C8 failing input. -/
def c8Assets : List PdfAsset :=
  [⟨some (.str "p1"), "orig.pdf", "p1.pdf", "blob"⟩]

/-- Upload oracle for the C8 failing input: the upload succeeds and
the §6 reply carries only a download URL (no tag field). -/
def c8Upload : Nat → PdfAsset → Except String AssetResponse :=
  fun _ _ => .ok { browser_download_url :=
    "https://github.com/u/r/releases/download/v2025.10.12/p1.pdf" }

/-- The per-paper bundle file for the C8 failing input. -/
def c8JsonFiles : List (String × Paper) :=
  [("papers/p1.json", { samplePaper with id := some (.str "p1") })]

/-- C8 evaluated at the failing input: after a deploy that created
release `v2025.10.12` and uploaded `p1.pdf` successfully, the
per-paper file's `pdfUrl` is the `@latest` URL — because `uploadPDFs`
reads `tag_name` off the upload-asset reply, which has none, and
`updateCDNUrls` ignores its tag argument — not the URL formed from the
created release's tag. -/
theorem deploy_pdfUrl_latest_bug :
    ((deployToGitHubReleases "u" "r" c8Release c8Upload c8Assets
        c8JsonFiles).jsonFiles.map (fun e => e.2.pdfUrl)) =
      [some "https://cdn.jsdelivr.net/gh/u/r@latest/p1.pdf"] ∧
    "https://cdn.jsdelivr.net/gh/u/r@latest/p1.pdf" ≠
      mkCdnUrl "u" "r" c8Release.tag_name "p1.pdf" := by decide

/-- `this.papersPerPage` (`src/app.js` line 10). -/
def papersPerPage : Nat := 12

/-- The page of records `renderPapersGrid` presents (`src/app.js`
lines 686-690): `slice((currentPage-1)*12, min((currentPage-1)*12+12,
filteredPapers.length))`. -/
def renderPapersGridSlice (filteredPapers : List Paper)
    (currentPage : Nat) : List Paper :=
  let startIndex := (currentPage - 1) * papersPerPage
  let endIndex := min (startIndex + papersPerPage) filteredPapers.length
  (filteredPapers.take endIndex).drop startIndex

/-- `goToPage` (`src/app.js` lines 841-845): sets `currentPage` to the
requested page and re-renders; it performs no clamping. -/
def goToPage (page : Nat) : Nat := page

/-- The total-page count of `updatePagination` (`src/app.js` line
811): `Math.ceil(filteredPapers.length / papersPerPage)`. -/
def totalPages (filteredCount : Nat) : Nat :=
  (filteredCount + papersPerPage - 1) / papersPerPage

/-- A 13-record filtered collection (2 pages of 12). -/
def pageCexPapers : List Paper :=
  (List.range 13).map (fun n => { title := toString n })

/-- Counterexample to C9 as stated: with 13 filtered records
(total-page count 2), requesting page 5 renders the empty page, not
the clamped last page (page 2, which is non-empty). -/
theorem goToPage_no_clamp_cex :
    totalPages pageCexPapers.length = 2 ∧
    renderPapersGridSlice pageCexPapers (goToPage 5) = [] ∧
    renderPapersGridSlice pageCexPapers 2 ≠ [] := by decide

/-- C9 (amended): the page size is fixed at 12 and the exposed
total-page count is `ceil(count/12)`; but `goToPage` does not clamp:
the presented page is always the raw slice
`drop ((page-1)*12) |> take 12`, which is the correct page for
requests in `[1, totalPages]` and the empty page for requests beyond
the last page. -/
theorem pagination_amended (l : List Paper) (page : Nat)
    (h1 : 1 ≤ page) :
    renderPapersGridSlice l (goToPage page) =
      (l.drop ((page - 1) * 12)).take 12 ∧
    (l.length ≤ 12 * totalPages l.length ∧
      12 * totalPages l.length < l.length + 12) ∧
    (page ≤ totalPages l.length →
      renderPapersGridSlice l (goToPage page) ≠ []) ∧
    (totalPages l.length < page →
      renderPapersGridSlice l (goToPage page) = []) := by
  have hslice : renderPapersGridSlice l (goToPage page) =
      (l.drop ((page - 1) * 12)).take 12 := by
    unfold renderPapersGridSlice goToPage papersPerPage
    have htk : l.take (min ((page - 1) * 12 + 12) l.length) =
        l.take ((page - 1) * 12 + 12) := by
      rw [List.take_eq_take]
      omega
    show List.drop ((page - 1) * 12)
        (List.take (min ((page - 1) * 12 + 12) l.length) l) =
      List.take 12 (List.drop ((page - 1) * 12) l)
    rw [htk, List.drop_take]
    congr 1
    omega
  refine ⟨hslice, ⟨?_, ?_⟩, ?_, ?_⟩
  · unfold totalPages papersPerPage
    omega
  · unfold totalPages papersPerPage
    omega
  · intro hp
    rw [hslice]
    intro heq
    rcases List.take_eq_nil_iff.mp heq with h12 | hdrop
    · omega
    · rw [List.drop_eq_nil_iff_le] at hdrop
      unfold totalPages papersPerPage at hp
      omega
  · intro hp
    rw [hslice]
    have hdrop : l.drop ((page - 1) * 12) = [] := by
      rw [List.drop_eq_nil_iff_le]
      unfold totalPages papersPerPage at hp
      omega
    rw [hdrop, List.take_nil]

/-- Witness for the amended C9 at the concrete 13-record
collection and an in-range and an out-of-range request. -/
theorem pagination_amended_witness :
    (renderPapersGridSlice pageCexPapers (goToPage 2) =
        (pageCexPapers.drop 12).take 12 ∧
      (pageCexPapers.length ≤ 12 * totalPages pageCexPapers.length ∧
        12 * totalPages pageCexPapers.length < pageCexPapers.length + 12) ∧
      (2 ≤ totalPages pageCexPapers.length →
        renderPapersGridSlice pageCexPapers (goToPage 2) ≠ []) ∧
      (totalPages pageCexPapers.length < 2 →
        renderPapersGridSlice pageCexPapers (goToPage 2) = [])) :=
  pagination_amended pageCexPapers 2 (by decide)
